import Mathlib

/-!
Shallow embedding of the resilient execution orchestrator: the configurable
variant `OrchestratorV2` (backoff, jitter, metrics, error classification) and
the simple fixed-delay variant `Orchestrator`, translated from the TypeScript
sources.  External collaborators (capture provider, cache store, media
acquisition, stream clone) are modelled as a per-attempt environment recording
the outcome each collaborator call would produce; JavaScript numbers are
modelled as exact rationals, `Date.now()` readings as naturals, and JavaScript
division (which yields the non-finite NaN or Infinity on a zero denominator)
as an `Option` that is `none` exactly on a zero denominator.
-/

/-- Outcome of the cache store for one attempt: the Cache API capability may be
absent, `caches.open`/`cache.put` may succeed, or one of them may throw with a
given message.  Mirrors the three paths through `cacheScreenshot`. -/
inductive CacheBehavior where
  | unavailable : CacheBehavior
  | available : CacheBehavior
  | throwErr : String → CacheBehavior
deriving DecidableEq, Repr

/-- Per-attempt behaviour of the external collaborators and clocks, as seen by
one iteration of the orchestrator loop.  `capture` is the (timeout-guarded)
result of `screenshotModule.captureWithSteps()`: either a thrown error message
or a pair of (blob present?, trace steps).  `stream` is the (timeout-guarded)
result of `navigator.mediaDevices.getDisplayMedia`: a thrown message or a
stream-present flag.  `clone` is the result of `cloneModule.cloneAndMimic`.
`startNow`, `keyNow`, `endNow` are the successive `Date.now()` readings taken
at attempt start, at cache-key allocation and in the handler computing
`durationMs`; `timestamp` is `new Date().toISOString()`; `rand` is the
`Math.random()` draw used by `calculateDelay`, a rational in `[0, 1)`. -/
structure AttemptEnv where
  capture : Except String (Bool × List String)
  cache : CacheBehavior
  stream : Except String Bool
  clone : Except String Unit
  startNow : Nat
  keyNow : Nat
  endNow : Nat
  timestamp : String
  rand : ℚ

/-- `RetryPolicy` from the source: `maxRetries`, `initialDelayMs`,
`maxDelayMs`, `backoffMultiplier`.  Delays and the multiplier are JavaScript
numbers, modelled as rationals. -/
structure RetryPolicy where
  maxRetries : Nat
  initialDelayMs : ℚ
  maxDelayMs : ℚ
  backoffMultiplier : ℚ

/-- One row of the execution history (`OrchestratorContextV2`): attempt index
(1-based), ISO timestamp, trace steps, the attempt's cache key, success flag,
duration in milliseconds, and the optional error message. -/
structure OrchestratorContextV2 where
  attempt : Nat
  timestamp : String
  steps : List String
  cacheKey : String
  success : Bool
  durationMs : Int
  error : Option String
deriving DecidableEq, Repr

/-- The running metrics counters of `OrchestratorV2`: `totalAttempts`,
`successfulAttempts`, `totalTimeMs`. -/
structure V2Metrics where
  totalAttempts : Nat
  successfulAttempts : Nat
  totalTimeMs : Int
deriving DecidableEq, Repr

/-- The mutable state of an `OrchestratorV2` instance that the claims are
about: the append-only `context` history and the `metrics` counters. -/
structure V2State where
  context : List OrchestratorContextV2
  metrics : V2Metrics
deriving DecidableEq, Repr

namespace OrchestratorV2

/-- `calculateDelay` from the source: exponential delay
`initialDelayMs * backoffMultiplier ^ (attempt - 1)` clamped (by `Math.min`)
to `maxDelayMs`, then jitter of up to ±20% is added:
`jitter = exponentialDelay * 0.2 * (Math.random() * 2 - 1)`.  Note the clamp
happens before the jitter is added, never after. -/
def calculateDelay (p : RetryPolicy) (attempt : Nat) (rand : ℚ) : ℚ :=
  let exponentialDelay := min (p.initialDelayMs * p.backoffMultiplier ^ (attempt - 1)) p.maxDelayMs
  let jitter := exponentialDelay * (1 / 5) * (rand * 2 - 1)
  exponentialDelay + jitter

/-- `toLowerCase` on the character-list model of a string (`String.toLower`
is exactly `String.map Char.toLower`, i.e. this map over the data). -/
def lowerChars (s : String) : List Char :=
  s.toList.map Char.toLower

/-- `isRetryableError` from the source: case-insensitive substring match
(`errorMsg.toLowerCase().includes(pattern.toLowerCase())`) of the error
message against the retryable patterns. -/
def isRetryableError (errorMsg : String) : Bool :=
  let retryablePatterns := ["timeout", "network", "FAILED_TO_START_DEVICE", "NotFoundError", "temporary"]
  retryablePatterns.any fun pattern => decide (lowerChars pattern <:+: lowerChars errorMsg)

/-- `cacheScreenshot` from the source, returning the console lines it emits.
If the Cache API is unavailable it warns and returns; if `caches.open` or
`cache.put` throws, the error is caught, logged and swallowed (the function
never propagates a failure); on success it logs the cached key.  Its only
observable output is this console trace. -/
def cacheScreenshot (cb : CacheBehavior) (key : String) : List String :=
  match cb with
  | .unavailable => ["Cache API not available - skipping cache"]
  | .available => ["Orchestrator: Cached screenshot at " ++ key]
  | .throwErr e => ["Orchestrator: Cache error (non-fatal): " ++ e]

/-- The body of the `try` block of one attempt of `OrchestratorV2.runFlow`:
capture (throwing "Screenshot blob is null - capture failed" when the provider
returned no blob), then `cacheScreenshot` (which never throws, so it cannot
affect this result; its console output is modelled separately), then the
unconditional push of the "Step 6" line, then stream acquisition (throwing
"Failed to get media stream" on a null stream), then cloning and the "Step 7"
line.  Returns the final `steps` on success or the thrown message. -/
def attemptResult (env : AttemptEnv) : Except String (List String) :=
  match env.capture with
  | .error msg => .error msg
  | .ok (blob, steps0) =>
    if blob = false then .error "Screenshot blob is null - capture failed"
    else
      let steps1 := steps0 ++ ["Step 6: Screenshot cached successfully"]
      match env.stream with
      | .error msg => .error msg
      | .ok present =>
        if present = false then .error "Failed to get media stream"
        else
          match env.clone with
          | .error msg => .error msg
          | .ok _ => .ok (steps1 ++ ["Step 7: Stream cloned and action listeners attached"])

/-- The record pushed in the `catch` handler of `runFlow`. -/
def failureRecord (attemptNo : Nat) (env : AttemptEnv) (cacheKey msg : String) :
    OrchestratorContextV2 :=
  { attempt := attemptNo
    timestamp := env.timestamp
    steps := ["Error: " ++ msg]
    cacheKey := cacheKey
    success := false
    durationMs := (env.endNow : Int) - (env.startNow : Int)
    error := some msg }

/-- The record pushed on the success path of `runFlow`. -/
def successRecord (attemptNo : Nat) (env : AttemptEnv) (cacheKey : String)
    (steps : List String) : OrchestratorContextV2 :=
  { attempt := attemptNo
    timestamp := env.timestamp
    steps := steps
    cacheKey := cacheKey
    success := true
    durationMs := (env.endNow : Int) - (env.startNow : Int)
    error := none }

/-- The `while (!success && retries < maxRetries)` loop of
`OrchestratorV2.runFlow`, with `retries` the number of completed attempts and
`fuel` a structural bound (initialised to `maxRetries`, an upper bound on the
number of iterations since each iteration increments `retries`).  Attempt
`retries + 1` reads environment `envs retries`.  On a retryable failure with
budget left (`retries < maxRetries` tested after the increment) the computed
backoff delay is recorded and the loop continues; on a non-retryable failure
the loop breaks; on a retryable failure without budget the loop re-tests its
condition and exits.  Returns the final state, the `success` flag and the list
of waits performed. -/
def runFlowAux (p : RetryPolicy) (envs : Nat → AttemptEnv) :
    Nat → Nat → V2State → V2State × Bool × List ℚ
  | 0, _, st => (st, false, [])
  | fuel + 1, retries, st =>
    if retries < p.maxRetries then
      let attemptNo := retries + 1
      let env := envs retries
      let cacheKey := "/screenshot-" ++ Nat.repr env.keyNow
      let st1 : V2State :=
        { st with metrics := { st.metrics with totalAttempts := st.metrics.totalAttempts + 1 } }
      match attemptResult env with
      | .ok steps =>
        ({ context := st1.context ++ [successRecord attemptNo env cacheKey steps]
           metrics := { st1.metrics with
                        successfulAttempts := st1.metrics.successfulAttempts + 1 } },
         true, [])
      | .error msg =>
        let st2 : V2State :=
          { st1 with context := st1.context ++ [failureRecord attemptNo env cacheKey msg] }
        if isRetryableError msg = true ∧ attemptNo < p.maxRetries then
          let d := calculateDelay p attemptNo env.rand
          let r := runFlowAux p envs fuel (retries + 1) st2
          (r.1, r.2.1, d :: r.2.2)
        else if ¬ (isRetryableError msg = true) then
          (st2, false, [])
        else
          runFlowAux p envs fuel (retries + 1) st2
    else (st, false, [])

/-- `OrchestratorV2.runFlow`: run the attempt loop from zero completed
attempts, then set `metrics.totalTimeMs` to the wall-clock span of the whole
run (`Date.now() - startTime`).  `runStart` and `runEnd` are the `Date.now()`
readings at entry and after the loop. -/
def runFlow (p : RetryPolicy) (envs : Nat → AttemptEnv) (st : V2State)
    (runStart runEnd : Nat) : V2State × Bool × List ℚ :=
  let r := runFlowAux p envs p.maxRetries 0 st
  ({ r.1 with metrics := { r.1.metrics with totalTimeMs := (runEnd : Int) - (runStart : Int) } },
   r.2.1, r.2.2)

/-- JavaScript floating-point division as used by `getMetrics`, restricted to
the values that occur there: on a nonzero denominator it is exact rational
division; on a zero denominator JavaScript produces the non-finite `NaN`
(for `0 / 0`) or `±Infinity`, modelled as `none`. -/
def jsDiv (a b : ℚ) : Option ℚ :=
  if b = 0 then none else some (a / b)

/-- The snapshot returned by `getMetrics`: the three counters plus
`successRate = (successfulAttempts / totalAttempts) * 100` and
`avgTimePerAttemptMs = totalTimeMs / totalAttempts`. -/
structure RunMetrics where
  totalAttempts : Nat
  successfulAttempts : Nat
  totalTimeMs : Int
  successRate : Option ℚ
  avgTimePerAttemptMs : Option ℚ
deriving DecidableEq, Repr

/-- `getMetrics` from the source: spreads the counters and computes
`successRate` and `avgTimePerAttemptMs` by division by `totalAttempts`. -/
def getMetrics (st : V2State) : RunMetrics :=
  { totalAttempts := st.metrics.totalAttempts
    successfulAttempts := st.metrics.successfulAttempts
    totalTimeMs := st.metrics.totalTimeMs
    successRate := (jsDiv (st.metrics.successfulAttempts : ℚ) (st.metrics.totalAttempts : ℚ)).map
      (· * 100)
    avgTimePerAttemptMs := jsDiv (st.metrics.totalTimeMs : ℚ) (st.metrics.totalAttempts : ℚ) }

/-- `getContext` from the source: returns a copy (`[...this.context]`) of the
history; the copy is modelled by the immutable list value. -/
def getContext (st : V2State) : List OrchestratorContextV2 :=
  st.context

/-- `clearContext` from the source: resets the history and the metrics
counters. -/
def clearContext (_st : V2State) : V2State :=
  { context := [], metrics := { totalAttempts := 0, successfulAttempts := 0, totalTimeMs := 0 } }

/-- `getLastCacheKey` from the source: filter the history to successful
records and return the last one's cache key, or `null`. -/
def getLastCacheKey (st : V2State) : Option String :=
  match (st.context.filter fun c => c.success).getLast? with
  | some c => some c.cacheKey
  | none => none

/-- State-passing form of `getContext`: the method body contains no assignment
to any field of `this`, so the translated state is returned unchanged next to
the copied history. -/
def getContextM (st : V2State) : List OrchestratorContextV2 × V2State :=
  (getContext st, st)

/-- State-passing form of `getMetrics`: no field of `this` is assigned, so the
state is returned unchanged next to the snapshot. -/
def getMetricsM (st : V2State) : RunMetrics × V2State :=
  (getMetrics st, st)

/-- State-passing form of `getLastCacheKey`: no field of `this` is assigned,
so the state is returned unchanged next to the result. -/
def getLastCacheKeyM (st : V2State) : Option String × V2State :=
  (getLastCacheKey st, st)

end OrchestratorV2

/-- One row of the simple orchestrator's history (`OrchestratorContext`):
like the V2 record but without duration and error fields. -/
structure OrchestratorContext where
  attempt : Nat
  timestamp : String
  steps : List String
  cacheKey : String
  success : Bool
deriving DecidableEq, Repr

/-- The mutable state of the simple `Orchestrator`: just the history. -/
structure SimpleState where
  context : List OrchestratorContext
deriving DecidableEq, Repr

namespace Orchestrator

/-- The body of the `try` block of one attempt of the simple
`Orchestrator.runFlow`: capture (no timeout guard), and when a blob is present
cache it (swallowing failures), acquire the display stream (without a
null-stream check) and clone it; the success record keeps the capture provider
steps unchanged (no extra step lines are pushed).  When no blob is present it
throws "Failed to capture screenshot". -/
def simpleAttemptResult (env : AttemptEnv) : Except String (List String) :=
  match env.capture with
  | .error msg => .error msg
  | .ok (blob, steps0) =>
    if blob = true then
      match env.stream with
      | .error msg => .error msg
      | .ok _ =>
        match env.clone with
        | .error msg => .error msg
        | .ok _ => .ok steps0
    else .error "Failed to capture screenshot"

/-- The `while (!success && retries < maxRetries)` loop of the simple
`Orchestrator.runFlow`, in the same fueled form as the V2 loop.  After any
failed attempt with budget left (`retries < maxRetries` after the increment)
it waits a fixed-schedule `1000 * retries` milliseconds; there is no error
classification and no break: every failure is retried while budget remains. -/
def runFlowAux (maxRetries : Nat) (envs : Nat → AttemptEnv) :
    Nat → Nat → SimpleState → SimpleState × Bool × List ℚ
  | 0, _, st => (st, false, [])
  | fuel + 1, retries, st =>
    if retries < maxRetries then
      let attemptNo := retries + 1
      let env := envs retries
      let cacheKey := "/screenshot-" ++ Nat.repr env.keyNow
      match simpleAttemptResult env with
      | .ok steps =>
        ({ context := st.context ++
            [{ attempt := attemptNo, timestamp := env.timestamp, steps := steps
               cacheKey := cacheKey, success := true }] }, true, [])
      | .error msg =>
        let st2 : SimpleState :=
          { context := st.context ++
              [{ attempt := attemptNo, timestamp := env.timestamp
                 steps := ["Error: " ++ msg], cacheKey := cacheKey, success := false }] }
        if attemptNo < maxRetries then
          let r := runFlowAux maxRetries envs fuel (retries + 1) st2
          (r.1, r.2.1, ((1000 : ℚ) * attemptNo) :: r.2.2)
        else
          runFlowAux maxRetries envs fuel (retries + 1) st2
    else (st, false, [])

/-- `Orchestrator.runFlow` (the simple variant): run the attempt loop from
zero completed attempts.  The method itself returns `void`; the success flag
and the waits performed are kept in the result for comparison with the
configurable variant. -/
def runFlow (maxRetries : Nat) (envs : Nat → AttemptEnv) (st : SimpleState) :
    SimpleState × Bool × List ℚ :=
  runFlowAux maxRetries envs maxRetries 0 st

end Orchestrator

open OrchestratorV2

/-! Concrete collaborator behaviours used to instantiate the theorems:
an attempt that fails retryably (a network error), one that fails fatally,
one whose capture returns no blob, and a fully successful pipeline over a
throwing cache store. -/

/-- An attempt whose capture throws "network down" (a retryable message). -/
def envRetryFailW : AttemptEnv :=
  { capture := .error "network down", cache := .available, stream := .ok true,
    clone := .ok (), startNow := 10, keyNow := 11, endNow := 20, timestamp := "t", rand := 1/2 }

/-- An attempt whose capture throws "boom" (matches no retryable pattern). -/
def envFatalFailW : AttemptEnv :=
  { capture := .error "boom", cache := .available, stream := .ok true,
    clone := .ok (), startNow := 10, keyNow := 11, endNow := 20, timestamp := "t", rand := 1/2 }

/-- An attempt whose capture returns an empty result (no blob) without
throwing. -/
def envEmptyBlobW : AttemptEnv :=
  { capture := .ok (false, ["Step 1: Request screen capture permission"])
    cache := .available, stream := .ok true, clone := .ok ()
    startNow := 10, keyNow := 11, endNow := 20, timestamp := "t", rand := 1/2 }

/-- A fully successful capture/stream/clone pipeline over a cache store that
always throws. -/
def envOkCacheThrowW : AttemptEnv :=
  { capture := .ok (true, ["s1"]), cache := .throwErr "disk full", stream := .ok true,
    clone := .ok (), startNow := 10, keyNow := 11, endNow := 20, timestamp := "t", rand := 1/2 }

/-- A fresh orchestrator state: empty history, zeroed counters. -/
def emptyV2 : V2State := { context := [], metrics := ⟨0, 0, 0⟩ }

/-- A state whose counters record one attempt, one success, 50 ms. -/
def mOneW : V2State := { context := [], metrics := ⟨1, 1, 50⟩ }

/-- Exhaustion invariant of the attempt loop: when every attempt fails with a
retryable message, the loop runs its full fuel (`maxRetries - retries`
iterations), appends one failure record per iteration, increments
`totalAttempts` once per iteration, never increments `successfulAttempts`,
and ends unsuccessfully. -/
lemma runFlowAux_all_retryable (p : RetryPolicy) (envs : Nat → AttemptEnv)
    (hall : ∀ i, ∃ m, attemptResult (envs i) = .error m ∧ isRetryableError m = true) :
    ∀ fuel retries st, fuel = p.maxRetries - retries →
    ∃ recs ds,
      runFlowAux p envs fuel retries st =
        ({ context := st.context ++ recs
           metrics := { totalAttempts := st.metrics.totalAttempts + fuel
                        successfulAttempts := st.metrics.successfulAttempts
                        totalTimeMs := st.metrics.totalTimeMs } }, false, ds) ∧
      recs.length = fuel ∧
      ∀ r ∈ recs, r.success = false ∧ ∃ m, r.error = some m ∧ isRetryableError m = true := by
  intro fuel
  induction fuel with
  | zero =>
    intro retries st _
    refine ⟨[], [], ?_, rfl, by simp⟩
    obtain ⟨ctx, ⟨a, b, c⟩⟩ := st
    simp [runFlowAux]
  | succ fuel ih =>
    intro retries st hfuel
    have hret : retries < p.maxRetries := by omega
    obtain ⟨m, hm, hr⟩ := hall retries
    simp only [runFlowAux, hm]
    rw [if_pos hret]
    by_cases hlast : retries + 1 < p.maxRetries
    · obtain ⟨recs', ds', heq, hlen, hmem⟩ :=
        ih (retries + 1)
          { context := st.context ++
              [failureRecord (retries + 1) (envs retries)
                ("/screenshot-" ++ Nat.repr (envs retries).keyNow) m]
            metrics := { totalAttempts := st.metrics.totalAttempts + 1
                         successfulAttempts := st.metrics.successfulAttempts
                         totalTimeMs := st.metrics.totalTimeMs } }
          (by omega)
      rw [if_pos ⟨hr, hlast⟩]
      refine ⟨failureRecord (retries + 1) (envs retries)
          ("/screenshot-" ++ Nat.repr (envs retries).keyNow) m :: recs',
        calculateDelay p (retries + 1) (envs retries).rand :: ds', ?_, by simp [hlen], ?_⟩
      · simp only [heq]
        have harith : st.metrics.totalAttempts + 1 + fuel =
            st.metrics.totalAttempts + (fuel + 1) := by omega
        simp [List.append_assoc, harith]
      · intro r hrmem
        rw [List.mem_cons] at hrmem
        rcases hrmem with hhead | htail
        · subst hhead
          exact ⟨rfl, m, rfl, hr⟩
        · exact hmem r htail
    · have hmax : p.maxRetries = retries + 1 := by omega
      have hfuel0 : fuel = 0 := by omega
      rw [if_neg (by simp [hr, hlast])]
      rw [if_neg (by simp [hr])]
      obtain ⟨recs', ds', heq, hlen, hmem⟩ :=
        ih (retries + 1)
          { context := st.context ++
              [failureRecord (retries + 1) (envs retries)
                ("/screenshot-" ++ Nat.repr (envs retries).keyNow) m]
            metrics := { totalAttempts := st.metrics.totalAttempts + 1
                         successfulAttempts := st.metrics.successfulAttempts
                         totalTimeMs := st.metrics.totalTimeMs } }
          (by omega)
      refine ⟨failureRecord (retries + 1) (envs retries)
          ("/screenshot-" ++ Nat.repr (envs retries).keyNow) m :: recs', ds', ?_,
        by simp [hlen], ?_⟩
      · simp only [heq]
        have harith : st.metrics.totalAttempts + 1 + fuel =
            st.metrics.totalAttempts + (fuel + 1) := by omega
        simp [List.append_assoc, harith]
      · intro r hrmem
        rw [List.mem_cons] at hrmem
        rcases hrmem with hhead | htail
        · subst hhead
          exact ⟨rfl, m, rfl, hr⟩
        · exact hmem r htail

/-- Claim C1: with `maxAttempts = N` (`N ≥ 1`) and a pipeline in which every
attempt fails with a retryable description, `runFlow` performs exactly N
attempts, appends exactly N records to the history, all failures carrying a
retryable error and none marked success, and returns failure. -/
theorem C1_exhaustion_terminates (p : RetryPolicy) (envs : Nat → AttemptEnv) (st : V2State)
    (runStart runEnd : Nat) (N : Nat)
    (hN : p.maxRetries = N) (h1 : 1 ≤ N)
    (hall : ∀ i, ∃ m, attemptResult (envs i) = .error m ∧ isRetryableError m = true) :
    ∃ recs ds,
      runFlow p envs st runStart runEnd =
        ({ context := st.context ++ recs
           metrics := { totalAttempts := st.metrics.totalAttempts + N
                        successfulAttempts := st.metrics.successfulAttempts
                        totalTimeMs := (runEnd : Int) - (runStart : Int) } },
         false, ds) ∧
      recs.length = N ∧
      ∀ r ∈ recs, r.success = false ∧ ∃ m, r.error = some m ∧ isRetryableError m = true := by
  obtain ⟨recs, ds, heq, hlen, hmem⟩ :=
    runFlowAux_all_retryable p envs hall p.maxRetries 0 st (by omega)
  refine ⟨recs, ds, ?_, by omega, hmem⟩
  unfold runFlow
  rw [heq]
  simp [hN]

/-- Witness for C1: a two-attempt policy over a pipeline always failing with
"network down" makes exactly 2 retryable-failure records and returns false. -/
theorem C1_exhaustion_terminates_witness :
    ((⟨2, 500, 5000, 2⟩ : RetryPolicy).maxRetries = 2 ∧ 1 ≤ 2) ∧
    ∃ recs ds,
      runFlow ⟨2, 500, 5000, 2⟩ (fun _ => envRetryFailW) emptyV2 0 100 =
        ({ context := emptyV2.context ++ recs
           metrics := { totalAttempts := emptyV2.metrics.totalAttempts + 2
                        successfulAttempts := emptyV2.metrics.successfulAttempts
                        totalTimeMs := (100 : Int) - (0 : Int) } },
         false, ds) ∧
      recs.length = 2 ∧
      ∀ r ∈ recs, r.success = false ∧ ∃ m, r.error = some m ∧ isRetryableError m = true := by
  refine ⟨⟨rfl, by omega⟩, ?_⟩
  exact C1_exhaustion_terminates ⟨2, 500, 5000, 2⟩ (fun _ => envRetryFailW) emptyV2 0 100 2 rfl
    (by omega) (fun i => ⟨"network down", rfl, by decide⟩)

/-- Claim C2: when the first attempt fails with a message classified fatal
(matching no retryable marker), `runFlow` appends exactly one (fatal failure)
record, performs no further attempts regardless of remaining budget, and
returns failure. -/
theorem C2_fatal_short_circuits (p : RetryPolicy) (envs : Nat → AttemptEnv) (st : V2State)
    (runStart runEnd : Nat) (m : String)
    (h1 : 1 ≤ p.maxRetries)
    (hfail : attemptResult (envs 0) = .error m)
    (hfatal : isRetryableError m = false) :
    runFlow p envs st runStart runEnd =
      ({ context := st.context ++
          [failureRecord 1 (envs 0) ("/screenshot-" ++ Nat.repr (envs 0).keyNow) m]
         metrics := { totalAttempts := st.metrics.totalAttempts + 1
                      successfulAttempts := st.metrics.successfulAttempts
                      totalTimeMs := (runEnd : Int) - (runStart : Int) } },
       false, []) := by
  obtain ⟨k, hk⟩ : ∃ k, p.maxRetries = k + 1 := ⟨p.maxRetries - 1, by omega⟩
  unfold runFlow
  rw [hk]
  simp only [runFlowAux, hfail, hfatal]
  have hpos : 0 < p.maxRetries := by omega
  simp [hpos]

/-- Witness for C2: a fatal "boom" failure on attempt 1 under a three-attempt
budget yields exactly one record and failure. -/
theorem C2_fatal_short_circuits_witness :
    (1 ≤ (⟨3, 500, 5000, 2⟩ : RetryPolicy).maxRetries ∧
      attemptResult envFatalFailW = .error "boom" ∧
      isRetryableError "boom" = false) ∧
    runFlow ⟨3, 500, 5000, 2⟩ (fun _ => envFatalFailW) emptyV2 0 100 =
      ({ context := emptyV2.context ++
          [failureRecord 1 envFatalFailW ("/screenshot-" ++ Nat.repr envFatalFailW.keyNow) "boom"]
         metrics := { totalAttempts := emptyV2.metrics.totalAttempts + 1
                      successfulAttempts := emptyV2.metrics.successfulAttempts
                      totalTimeMs := (100 : Int) - (0 : Int) } },
       false, []) := by
  refine ⟨⟨by decide, rfl, by decide⟩, ?_⟩
  exact C2_fatal_short_circuits ⟨3, 500, 5000, 2⟩ (fun _ => envFatalFailW) emptyV2 0 100 "boom"
    (by decide) rfl (by decide)

/-- Claim C3: with a cache store that always throws and a successful
capture/stream/clone pipeline, `runFlow` still succeeds and appends a success
record; moreover the attempt's result is independent of the cache behaviour
(a failure inside the cache adapter never propagates out of it). -/
theorem C3_cache_failure_invisible (p : RetryPolicy) (envs : Nat → AttemptEnv) (st : V2State)
    (runStart runEnd : Nat) (steps0 : List String)
    (h1 : 1 ≤ p.maxRetries)
    (hcap : (envs 0).capture = .ok (true, steps0))
    (_hcache : ∃ e, (envs 0).cache = CacheBehavior.throwErr e)
    (hstream : (envs 0).stream = .ok true)
    (hclone : (envs 0).clone = .ok ()) :
    (∀ cb, attemptResult { envs 0 with cache := cb } = attemptResult (envs 0)) ∧
    runFlow p envs st runStart runEnd =
      ({ context := st.context ++
          [successRecord 1 (envs 0) ("/screenshot-" ++ Nat.repr (envs 0).keyNow)
            ((steps0 ++ ["Step 6: Screenshot cached successfully"]) ++
              ["Step 7: Stream cloned and action listeners attached"])]
         metrics := { totalAttempts := st.metrics.totalAttempts + 1
                      successfulAttempts := st.metrics.successfulAttempts + 1
                      totalTimeMs := (runEnd : Int) - (runStart : Int) } },
       true, []) := by
  have hres : attemptResult (envs 0) =
      .ok ((steps0 ++ ["Step 6: Screenshot cached successfully"]) ++
        ["Step 7: Stream cloned and action listeners attached"]) := by
    unfold attemptResult
    rw [hcap, hstream, hclone]
    simp
  constructor
  · intro cb
    unfold attemptResult
    simp
  · obtain ⟨k, hk⟩ : ∃ k, p.maxRetries = k + 1 := ⟨p.maxRetries - 1, by omega⟩
    unfold runFlow
    rw [hk]
    simp only [runFlowAux, hres]
    have hpos : 0 < p.maxRetries := by omega
    simp [hpos]

/-- Witness for C3: over a cache store throwing "disk full" and a successful
pipeline, the run reports success with one success record. -/
theorem C3_cache_failure_invisible_witness :
    (1 ≤ (⟨3, 500, 5000, 2⟩ : RetryPolicy).maxRetries ∧
      envOkCacheThrowW.capture = .ok (true, ["s1"]) ∧
      envOkCacheThrowW.cache = CacheBehavior.throwErr "disk full" ∧
      envOkCacheThrowW.stream = .ok true ∧ envOkCacheThrowW.clone = .ok ()) ∧
    ((∀ cb, attemptResult { envOkCacheThrowW with cache := cb } = attemptResult envOkCacheThrowW) ∧
    runFlow ⟨3, 500, 5000, 2⟩ (fun _ => envOkCacheThrowW) emptyV2 0 100 =
      ({ context := emptyV2.context ++
          [successRecord 1 envOkCacheThrowW ("/screenshot-" ++ Nat.repr envOkCacheThrowW.keyNow)
            ((["s1"] ++ ["Step 6: Screenshot cached successfully"]) ++
              ["Step 7: Stream cloned and action listeners attached"])]
         metrics := { totalAttempts := emptyV2.metrics.totalAttempts + 1
                      successfulAttempts := emptyV2.metrics.successfulAttempts + 1
                      totalTimeMs := (100 : Int) - (0 : Int) } },
       true, [])) := by
  refine ⟨⟨by decide, rfl, rfl, rfl, rfl⟩, ?_⟩
  exact C3_cache_failure_invisible ⟨3, 500, 5000, 2⟩ (fun _ => envOkCacheThrowW) emptyV2 0 100
    ["s1"] (by decide) rfl ⟨"disk full", rfl⟩ rfl rfl

/-- Counterexample for C4: on a cleared ledger both metric ratios are the
non-finite result of dividing by zero attempts (`none`), not 0; and on one
attempt with one success the code reports 100 (a percentage), not
`successes / attempts = 1`. -/
theorem C4_metrics_counterexample :
    (getMetrics (clearContext emptyV2)).successRate = none ∧
    (getMetrics (clearContext emptyV2)).avgTimePerAttemptMs = none ∧
    (getMetrics mOneW).successRate = some 100 ∧
    ((1 : ℚ) / 1 ≠ 100) := by
  refine ⟨?_, ?_, ?_, by norm_num⟩
  · simp [getMetrics, jsDiv, clearContext]
  · simp [getMetrics, jsDiv, clearContext]
  · simp [getMetrics, jsDiv, mOneW]

/-- Claim C4 as amended: when `totalAttempts > 0` the snapshot reports
`successRate = (successes / attempts) * 100` and
`avgTimePerAttemptMs = totalTime / attempts`; when `totalAttempts = 0` (a
cleared ledger) both divisions have a zero denominator and the JavaScript
results are the non-finite NaN, modelled `none` — not 0 and not a fault. -/
theorem C4_metrics_snapshot (st : V2State) :
    (st.metrics.totalAttempts ≠ 0 →
      (getMetrics st).successRate =
        some ((st.metrics.successfulAttempts : ℚ) / (st.metrics.totalAttempts : ℚ) * 100) ∧
      (getMetrics st).avgTimePerAttemptMs =
        some ((st.metrics.totalTimeMs : ℚ) / (st.metrics.totalAttempts : ℚ))) ∧
    (st.metrics.totalAttempts = 0 →
      (getMetrics st).successRate = none ∧ (getMetrics st).avgTimePerAttemptMs = none) := by
  constructor
  · intro h
    have : ((st.metrics.totalAttempts : ℚ)) ≠ 0 := by exact_mod_cast h
    simp [getMetrics, jsDiv, this]
  · intro h
    simp [getMetrics, jsDiv, h]

/-- Witness for C4: the amended snapshot formulas evaluated on a
one-attempt-one-success state and on a cleared state. -/
theorem C4_metrics_snapshot_witness :
    (getMetrics mOneW).successRate = some ((1 : ℚ) / (1 : ℚ) * 100) ∧
    (getMetrics (clearContext emptyV2)).successRate = none := by
  constructor
  · exact ((C4_metrics_snapshot mOneW).1 (by decide)).1
  · exact ((C4_metrics_snapshot (clearContext emptyV2)).2 rfl).1

/-- Counterexample for C5: under the claim's own policy constraints
(`initialDelay ≥ 0`, `maxDelay ≥ initialDelay`, `multiplier > 1`) and a random
draw in `[0, 1)`, the computed delay exceeds `maxDelay`: with
`initialDelay = maxDelay = 1000` and draw `0.99` the delay is 1196, because
the source clamps before adding ±20% jitter and never clamps afterwards. -/
theorem C5_delay_counterexample :
    (0 : ℚ) ≤ (⟨3, 1000, 1000, 2⟩ : RetryPolicy).initialDelayMs ∧
    (⟨3, 1000, 1000, 2⟩ : RetryPolicy).initialDelayMs ≤
      (⟨3, 1000, 1000, 2⟩ : RetryPolicy).maxDelayMs ∧
    (1 : ℚ) < (⟨3, 1000, 1000, 2⟩ : RetryPolicy).backoffMultiplier ∧
    (0 : ℚ) ≤ 99 / 100 ∧ (99 / 100 : ℚ) < 1 ∧
    calculateDelay ⟨3, 1000, 1000, 2⟩ 1 (99 / 100) >
      (⟨3, 1000, 1000, 2⟩ : RetryPolicy).maxDelayMs := by
  refine ⟨by norm_num, by norm_num, by norm_num, by norm_num, by norm_num, ?_⟩
  norm_num [calculateDelay]

/-- Claim C5 as amended: for every attempt index, every policy with
`initialDelay ≥ 0`, `initialDelay ≤ maxDelay`, `0 ≤ maxDelay`,
`multiplier > 1`, and every random draw in `[0, 1)`, the computed delay lies
in `[0, 1.2 * maxDelay]` (the pre-jitter base is clamped to `maxDelay`, and
the ±20% jitter can push the final value up to 20% above it but never below
zero). -/
theorem C5_delay_bounds (p : RetryPolicy) (attempt : Nat) (rand : ℚ)
    (hinit : 0 ≤ p.initialDelayMs) (hmax : p.initialDelayMs ≤ p.maxDelayMs)
    (hmax0 : 0 ≤ p.maxDelayMs)
    (hmult : 1 < p.backoffMultiplier) (_hatt : 1 ≤ attempt)
    (hr0 : 0 ≤ rand) (hr1 : rand < 1) :
    0 ≤ calculateDelay p attempt rand ∧
      calculateDelay p attempt rand ≤ 6 / 5 * p.maxDelayMs := by
  unfold calculateDelay
  have hpow : (0 : ℚ) ≤ p.backoffMultiplier ^ (attempt - 1) :=
    pow_nonneg (by linarith) _
  have hE0 : (0 : ℚ) ≤ min (p.initialDelayMs * p.backoffMultiplier ^ (attempt - 1)) p.maxDelayMs :=
    le_min (mul_nonneg hinit hpow) hmax0
  have hEmax : min (p.initialDelayMs * p.backoffMultiplier ^ (attempt - 1)) p.maxDelayMs ≤
      p.maxDelayMs := min_le_right _ _
  set E := min (p.initialDelayMs * p.backoffMultiplier ^ (attempt - 1)) p.maxDelayMs with hE
  constructor
  · nlinarith
  · nlinarith

/-- Witness for C5: the amended bounds at a concrete policy, attempt 2 and
draw 0.99. -/
theorem C5_delay_bounds_witness :
    ((0 : ℚ) ≤ (⟨3, 500, 5000, 2⟩ : RetryPolicy).initialDelayMs ∧
      (⟨3, 500, 5000, 2⟩ : RetryPolicy).initialDelayMs ≤
        (⟨3, 500, 5000, 2⟩ : RetryPolicy).maxDelayMs ∧
      (0 : ℚ) ≤ (⟨3, 500, 5000, 2⟩ : RetryPolicy).maxDelayMs ∧
      (1 : ℚ) < (⟨3, 500, 5000, 2⟩ : RetryPolicy).backoffMultiplier ∧
      1 ≤ 2 ∧ (0 : ℚ) ≤ 99 / 100 ∧ (99 / 100 : ℚ) < 1) ∧
    (0 ≤ calculateDelay ⟨3, 500, 5000, 2⟩ 2 (99 / 100) ∧
      calculateDelay ⟨3, 500, 5000, 2⟩ 2 (99 / 100) ≤
        6 / 5 * (⟨3, 500, 5000, 2⟩ : RetryPolicy).maxDelayMs) := by
  refine ⟨⟨by norm_num, by norm_num, by norm_num, by norm_num, by norm_num,
    by norm_num, by norm_num⟩, ?_⟩
  exact C5_delay_bounds ⟨3, 500, 5000, 2⟩ 2 (99 / 100) (by norm_num) (by norm_num)
    (by norm_num) (by norm_num) (by norm_num) (by norm_num) (by norm_num)

/-- Counterexample for C6: the empty-capture description
"Screenshot blob is null - capture failed" matches no retryable marker, so
with budget for three attempts the run performs only one attempt (aborting as
fatal) instead of retrying. -/
theorem C6_empty_capture_counterexample :
    isRetryableError "Screenshot blob is null - capture failed" = false ∧
    (runFlow ⟨3, 500, 5000, 2⟩ (fun _ => envEmptyBlobW) emptyV2 0 100).2.1 = false ∧
    (runFlow ⟨3, 500, 5000, 2⟩ (fun _ => envEmptyBlobW) emptyV2 0 100).1.context.length = 1 := by
  refine ⟨by decide, by decide, by decide⟩

/-- Claim C6 as amended: when the capture provider returns an empty result
without throwing, the attempt throws
"Screenshot blob is null - capture failed", which is classified fatal (it
matches no retryable marker), so the run aborts after that single attempt
regardless of remaining budget instead of retrying with backoff. -/
theorem C6_empty_capture_fatal (p : RetryPolicy) (envs : Nat → AttemptEnv) (st : V2State)
    (runStart runEnd : Nat) (steps0 : List String)
    (h1 : 1 ≤ p.maxRetries)
    (hcap : (envs 0).capture = .ok (false, steps0)) :
    isRetryableError "Screenshot blob is null - capture failed" = false ∧
    runFlow p envs st runStart runEnd =
      ({ context := st.context ++
          [failureRecord 1 (envs 0) ("/screenshot-" ++ Nat.repr (envs 0).keyNow)
            "Screenshot blob is null - capture failed"]
         metrics := { totalAttempts := st.metrics.totalAttempts + 1
                      successfulAttempts := st.metrics.successfulAttempts
                      totalTimeMs := (runEnd : Int) - (runStart : Int) } },
       false, []) := by
  have hres : attemptResult (envs 0) = .error "Screenshot blob is null - capture failed" := by
    unfold attemptResult
    rw [hcap]
    simp
  refine ⟨by decide, ?_⟩
  obtain ⟨k, hk⟩ : ∃ k, p.maxRetries = k + 1 := ⟨p.maxRetries - 1, by omega⟩
  unfold runFlow
  rw [hk]
  simp only [runFlowAux, hres]
  have hpos : 0 < p.maxRetries := by omega
  have hfatal : isRetryableError "Screenshot blob is null - capture failed" = false := by decide
  simp [hpos, hfatal]

/-- Witness for C6: the amended behaviour on a concrete empty-capture
pipeline under a three-attempt budget. -/
theorem C6_empty_capture_fatal_witness :
    (1 ≤ (⟨3, 500, 5000, 2⟩ : RetryPolicy).maxRetries ∧
      envEmptyBlobW.capture = .ok (false, ["Step 1: Request screen capture permission"])) ∧
    (isRetryableError "Screenshot blob is null - capture failed" = false ∧
    runFlow ⟨3, 500, 5000, 2⟩ (fun _ => envEmptyBlobW) emptyV2 0 100 =
      ({ context := emptyV2.context ++
          [failureRecord 1 envEmptyBlobW ("/screenshot-" ++ Nat.repr envEmptyBlobW.keyNow)
            "Screenshot blob is null - capture failed"]
         metrics := { totalAttempts := emptyV2.metrics.totalAttempts + 1
                      successfulAttempts := emptyV2.metrics.successfulAttempts
                      totalTimeMs := (100 : Int) - (0 : Int) } },
       false, [])) := by
  refine ⟨⟨by decide, rfl⟩, ?_⟩
  exact C6_empty_capture_fatal ⟨3, 500, 5000, 2⟩ (fun _ => envEmptyBlobW) emptyV2 0 100
    ["Step 1: Request screen capture permission"] (by decide) rfl

/-- The adapter's success line differs from its capability-absent warning:
they disagree at the first character. -/
lemma cache_line_ne_unavailable (key : String) :
    "Cache API not available - skipping cache" ≠ "Orchestrator: Cached screenshot at " ++ key := by
  intro h
  have h0 := congrArg (fun s : String => s.data.head?) h
  simp only [String.data_append] at h0
  simp at h0

/-- The adapter's success line differs from its caught-error line for every
thrown message: they disagree at character 19 (' ' versus 'd'). -/
lemma cache_line_ne_throw (e key : String) :
    "Orchestrator: Cache error (non-fatal): " ++ e ≠ "Orchestrator: Cached screenshot at " ++ key := by
  intro h
  have h19 := congrArg (fun s : String => s.data.get? 19) h
  simp only [String.data_append] at h19
  rw [List.get?_eq_getElem?, List.get?_eq_getElem?] at h19
  rw [List.getElem?_append_left (by decide), List.getElem?_append_left (by decide)] at h19
  simp at h19

/-- Every successful attempt's recorded steps contain the "Step 6" line: it is
pushed unconditionally after `cacheScreenshot` returns, whatever the cache
outcome was. -/
lemma attemptResult_ok_steps {env : AttemptEnv} {steps : List String}
    (h : attemptResult env = .ok steps) :
    "Step 6: Screenshot cached successfully" ∈ steps := by
  unfold attemptResult at h
  rcases hc : env.capture with m | bs
  · rw [hc] at h; exact absurd h (by simp)
  · rw [hc] at h
    obtain ⟨blob, steps0⟩ := bs
    simp only at h
    by_cases hb : blob = false
    · rw [if_pos hb] at h; exact absurd h (by simp)
    · rw [if_neg hb] at h
      rcases hs : env.stream with m | present
      · rw [hs] at h; exact absurd h (by simp)
      · rw [hs] at h
        simp only at h
        by_cases hp : present = false
        · rw [if_pos hp] at h; exact absurd h (by simp)
        · rw [if_neg hp] at h
          rcases hcl : env.clone with m | u
          · rw [hcl] at h; exact absurd h (by simp)
          · rw [hcl] at h
            simp only [Except.ok.injEq] at h
            subst h
            simp

/-- Counterexample for C7: over a cache store that always throws and a
successful pipeline, the run's success record still contains the
"Step 6: Screenshot cached successfully" steps line — the line is present even
though the cache put failed, refuting the claimed "if and only if". -/
theorem C7_cache_trace_counterexample :
    envOkCacheThrowW.cache = CacheBehavior.throwErr "disk full" ∧
    (runFlow ⟨3, 500, 5000, 2⟩ (fun _ => envOkCacheThrowW) emptyV2 0 100).2.1 = true ∧
    ∀ c ∈ (runFlow ⟨3, 500, 5000, 2⟩ (fun _ => envOkCacheThrowW) emptyV2 0 100).1.context,
      c.success = true ∧ "Step 6: Screenshot cached successfully" ∈ c.steps := by
  refine ⟨rfl, by decide, by decide⟩

/-- Claim C7 as amended: the "cached successfully" steps line of a successful
attempt is pushed unconditionally (present whatever the cache outcome), so the
record's steps do not witness the cache put; what distinguishes a successful
put is the adapter's own console trace, which reads
"Orchestrator: Cached screenshot at <key>" exactly when open/put succeeded. -/
theorem C7_cache_trace_line (cb : CacheBehavior) (key : String) (env : AttemptEnv)
    (steps : List String)
    (hok : attemptResult env = .ok steps) :
    "Step 6: Screenshot cached successfully" ∈ steps ∧
    ((("Orchestrator: Cached screenshot at " ++ key) ∈ cacheScreenshot cb key) ↔
      cb = CacheBehavior.available) := by
  refine ⟨attemptResult_ok_steps hok, ?_⟩
  cases cb with
  | unavailable =>
    simp [cacheScreenshot]
    exact fun h => (cache_line_ne_unavailable key h.symm).elim
  | available => simp [cacheScreenshot]
  | throwErr e =>
    simp [cacheScreenshot]
    exact fun h => (cache_line_ne_throw e key h.symm).elim

/-- Witness for C7: the amended property at the throwing cache store and the
concrete successful attempt. -/
theorem C7_cache_trace_line_witness :
    (attemptResult envOkCacheThrowW =
      .ok ((["s1"] ++ ["Step 6: Screenshot cached successfully"]) ++
        ["Step 7: Stream cloned and action listeners attached"])) ∧
    ("Step 6: Screenshot cached successfully" ∈
      ((["s1"] ++ ["Step 6: Screenshot cached successfully"]) ++
        ["Step 7: Stream cloned and action listeners attached"]) ∧
    ((("Orchestrator: Cached screenshot at " ++ "/screenshot-11") ∈
        cacheScreenshot (CacheBehavior.throwErr "disk full") "/screenshot-11") ↔
      CacheBehavior.throwErr "disk full" = CacheBehavior.available)) := by
  refine ⟨rfl, ?_⟩
  exact C7_cache_trace_line (CacheBehavior.throwErr "disk full") "/screenshot-11"
    envOkCacheThrowW _ rfl

/-- Claim C10: the read accessors are pure: in state-passing form each returns
the state unchanged (no field of the instance is assigned), `getContext`
returns (a copy of) the history — the copy is a value, so no operation on it
can affect the instance — and the other accessors return exactly the pure
functions of the state they compute. -/
theorem C10_accessors_pure (st : V2State) :
    (getContextM st).2 = st ∧ (getMetricsM st).2 = st ∧ (getLastCacheKeyM st).2 = st ∧
    (getContextM st).1 = st.context ∧
    (getMetricsM st).1 = getMetrics st ∧
    (getLastCacheKeyM st).1 = getLastCacheKey st := by
  exact ⟨rfl, rfl, rfl, rfl, rfl, rfl⟩

/-- Numeric value of a decimal digit character. -/
def digitVal (c : Char) : Nat := c.toNat - '0'.toNat

/-- Value of a most-significant-first list of decimal digit characters. -/
def valOfDigits (l : List Char) : Nat := l.foldl (fun a c => 10 * a + digitVal c) 0

lemma digitVal_digitChar : ∀ m, m < 10 → digitVal (Nat.digitChar m) = m := by decide

lemma valOfDigits_append_singleton (l : List Char) (c : Char) :
    valOfDigits (l ++ [c]) = 10 * valOfDigits l + digitVal c := by
  simp [valOfDigits, List.foldl_append]

/-- The digit accumulator of `Nat.toDigitsCore` is only appended to. -/
lemma toDigitsCore_acc (fuel : Nat) :
    ∀ n acc, Nat.toDigitsCore 10 fuel n acc = Nat.toDigitsCore 10 fuel n [] ++ acc := by
  induction fuel with
  | zero => intro n acc; simp [Nat.toDigitsCore]
  | succ fuel ih =>
    intro n acc
    simp only [Nat.toDigitsCore]
    by_cases h : n / 10 = 0
    · rw [if_pos h, if_pos h]
      simp
    · rw [if_neg h, if_neg h, ih (n / 10) (Nat.digitChar (n % 10) :: acc),
        ih (n / 10) [Nat.digitChar (n % 10)]]
      simp

/-- Reading back the decimal digits produced by `Nat.toDigitsCore` recovers
the number. -/
lemma valOfDigits_toDigitsCore (fuel : Nat) :
    ∀ n, n < fuel → valOfDigits (Nat.toDigitsCore 10 fuel n []) = n := by
  induction fuel with
  | zero => intro n hn; omega
  | succ fuel ih =>
    intro n hn
    simp only [Nat.toDigitsCore]
    by_cases h : n / 10 = 0
    · rw [if_pos h]
      have hlt : n < 10 := by omega
      have : valOfDigits [Nat.digitChar (n % 10)] = digitVal (Nat.digitChar (n % 10)) := by
        simp [valOfDigits]
      rw [this, digitVal_digitChar (n % 10) (Nat.mod_lt n (by norm_num))]
      omega
    · rw [if_neg h, toDigitsCore_acc fuel (n / 10) [Nat.digitChar (n % 10)],
        valOfDigits_append_singleton]
      have hn0 : 0 < n := by
        rcases Nat.eq_zero_or_pos n with h0 | h0
        · exact absurd (by simp [h0]) h
        · exact h0
      have hdiv : n / 10 < fuel := by omega
      rw [ih (n / 10) hdiv, digitVal_digitChar (n % 10) (Nat.mod_lt n (by norm_num))]
      omega

/-- Decimal rendering of naturals is injective. -/
lemma nat_repr_injective : Function.Injective Nat.repr := by
  intro m n h
  have hdata : (Nat.toDigits 10 m) = (Nat.toDigits 10 n) := by
    have := congrArg String.data h
    simpa [Nat.repr, List.asString] using this
  have hm := valOfDigits_toDigitsCore (m + 1) m (by omega)
  have hn := valOfDigits_toDigitsCore (n + 1) n (by omega)
  unfold Nat.toDigits at hdata
  rw [← hm, ← hn, hdata]

/-- Two allocated cache keys coincide exactly when the `Date.now()` readings
they were derived from coincide. -/
lemma cacheKey_inj (a b : Nat) :
    ("/screenshot-" ++ Nat.repr a = "/screenshot-" ++ Nat.repr b) ↔ a = b := by
  constructor
  · intro h
    have hdata := congrArg String.data h
    simp only [String.data_append] at hdata
    have := List.append_cancel_left hdata
    exact nat_repr_injective (String.ext this)
  · intro h; rw [h]

/-- Structure of the records appended by the attempt loop: starting from
`retries` completed attempts, the loop appends at most `fuel` records, the
`j`-th of which carries attempt index `retries + j + 1` and cache key
`"/screenshot-" ++ repr ((envs (retries + j)).keyNow)`. -/
lemma runFlowAux_keys (p : RetryPolicy) (envs : Nat → AttemptEnv) :
    ∀ fuel retries st,
    ∃ recs,
      (runFlowAux p envs fuel retries st).1.context = st.context ++ recs ∧
      recs.length ≤ fuel ∧
      ∀ j (hj : j < recs.length),
        (recs.get ⟨j, hj⟩).cacheKey = "/screenshot-" ++ Nat.repr (envs (retries + j)).keyNow ∧
        (recs.get ⟨j, hj⟩).attempt = retries + j + 1 := by
  intro fuel
  induction fuel with
  | zero =>
    intro retries st
    exact ⟨[], by simp [runFlowAux], by simp, by simp⟩
  | succ fuel ih =>
    intro retries st
    by_cases hret : retries < p.maxRetries
    · rcases hres : attemptResult (envs retries) with m | steps
      · by_cases hcond : isRetryableError m = true ∧ retries + 1 < p.maxRetries
        · obtain ⟨recs', hctx, hlen, hkeys⟩ :=
            ih (retries + 1)
              { context := st.context ++
                  [failureRecord (retries + 1) (envs retries)
                    ("/screenshot-" ++ Nat.repr (envs retries).keyNow) m]
                metrics := { totalAttempts := st.metrics.totalAttempts + 1
                             successfulAttempts := st.metrics.successfulAttempts
                             totalTimeMs := st.metrics.totalTimeMs } }
          refine ⟨failureRecord (retries + 1) (envs retries)
              ("/screenshot-" ++ Nat.repr (envs retries).keyNow) m :: recs', ?_, by
                simpa using hlen, ?_⟩
          · simp only [runFlowAux, hres]
            rw [if_pos hret, if_pos hcond]
            simp only at hctx ⊢
            rw [hctx]
            simp
          · intro j hj
            cases j with
            | zero => exact ⟨rfl, rfl⟩
            | succ j =>
              have hj' : j < recs'.length := by simpa using hj
              have := hkeys j hj'
              simpa [Nat.add_assoc, Nat.add_comm 1 j] using this
        · by_cases hretry : isRetryableError m = true
          · obtain ⟨recs', hctx, hlen, hkeys⟩ :=
              ih (retries + 1)
                { context := st.context ++
                    [failureRecord (retries + 1) (envs retries)
                      ("/screenshot-" ++ Nat.repr (envs retries).keyNow) m]
                  metrics := { totalAttempts := st.metrics.totalAttempts + 1
                               successfulAttempts := st.metrics.successfulAttempts
                               totalTimeMs := st.metrics.totalTimeMs } }
            refine ⟨failureRecord (retries + 1) (envs retries)
                ("/screenshot-" ++ Nat.repr (envs retries).keyNow) m :: recs', ?_, by
                  simpa using hlen, ?_⟩
            · simp only [runFlowAux, hres]
              rw [if_pos hret, if_neg hcond, if_neg (by simp [hretry])]
              simp only at hctx ⊢
              rw [hctx]
              simp
            · intro j hj
              cases j with
              | zero => exact ⟨rfl, rfl⟩
              | succ j =>
                have hj' : j < recs'.length := by simpa using hj
                have := hkeys j hj'
                simpa [Nat.add_assoc, Nat.add_comm 1 j] using this
          · refine ⟨[failureRecord (retries + 1) (envs retries)
                ("/screenshot-" ++ Nat.repr (envs retries).keyNow) m], ?_, by simp, ?_⟩
            · simp only [runFlowAux, hres]
              rw [if_pos hret, if_neg hcond, if_pos (by simp [hretry])]
            · intro j hj
              have hj0 : j = 0 := by simpa using Nat.lt_one_iff.mp (by simpa using hj)
              subst hj0
              exact ⟨rfl, rfl⟩
      · refine ⟨[successRecord (retries + 1) (envs retries)
            ("/screenshot-" ++ Nat.repr (envs retries).keyNow) steps], ?_, by simp, ?_⟩
        · simp only [runFlowAux, hres]
          rw [if_pos hret]
        · intro j hj
          have hj0 : j = 0 := by simpa using Nat.lt_one_iff.mp (by simpa using hj)
          subst hj0
          exact ⟨rfl, rfl⟩
    · refine ⟨[], ?_, by simp, by simp⟩
      simp only [runFlowAux]
      rw [if_neg hret]
      simp

/-- An attempt environment whose `Date.now()` reading at key allocation is
always 11: two sub-millisecond attempts see the same clock value. -/
def envSameClockW : AttemptEnv :=
  { capture := .error "network down", cache := .available, stream := .ok true,
    clone := .ok (), startNow := 10, keyNow := 11, endNow := 10, timestamp := "t", rand := 1/2 }

/-- Counterexample for C8: under the policy `{maxRetries 2, initialDelay 0,
maxDelay 5000, multiplier 2}` (permitted by the data model, `initialDelay = 0`)
and a clock that reads 11 at both key allocations, the two distinct attempts
of one run are assigned the same cache key "/screenshot-11": the key is
derived from `Date.now()` alone (no attempt index), so keys are not pairwise
distinct within a run. -/
theorem C8_cache_key_counterexample :
    ((0 : ℚ) ≤ (⟨2, 0, 5000, 2⟩ : RetryPolicy).initialDelayMs ∧
      (⟨2, 0, 5000, 2⟩ : RetryPolicy).initialDelayMs ≤ (⟨2, 0, 5000, 2⟩ : RetryPolicy).maxDelayMs ∧
      (1 : ℚ) < (⟨2, 0, 5000, 2⟩ : RetryPolicy).backoffMultiplier ∧
      1 ≤ (⟨2, 0, 5000, 2⟩ : RetryPolicy).maxRetries) ∧
    (runFlow ⟨2, 0, 5000, 2⟩ (fun _ => envSameClockW) emptyV2 0 0).1.context.map
      (fun c => (c.attempt, c.cacheKey)) =
      [(1, "/screenshot-11"), (2, "/screenshot-11")] := by
  refine ⟨⟨by norm_num, by norm_num, by norm_num, by norm_num⟩, by decide⟩

/-- Claim C8 as amended: an attempt's cache key is exactly
`"/screenshot-" ++ repr (Date.now())`, so keys of distinct attempts are
distinct precisely as far as the clock readings are: whenever the readings at
key allocation are pairwise distinct (e.g. a strictly increasing millisecond
clock), the keys of one run are pairwise distinct; with equal readings (two
attempts within one millisecond, possible with `initialDelay = 0`) they
collide. -/
theorem C8_cache_keys_distinct (p : RetryPolicy) (envs : Nat → AttemptEnv) (st : V2State)
    (runStart runEnd : Nat)
    (hdist : ∀ i j, i < p.maxRetries → j < p.maxRetries → i ≠ j →
      (envs i).keyNow ≠ (envs j).keyNow) :
    ∃ recs,
      (runFlow p envs st runStart runEnd).1.context = st.context ++ recs ∧
      recs.length ≤ p.maxRetries ∧
      (∀ j (hj : j < recs.length),
        (recs.get ⟨j, hj⟩).cacheKey = "/screenshot-" ++ Nat.repr (envs j).keyNow) ∧
      ∀ j k (hj : j < recs.length) (hk : k < recs.length), j ≠ k →
        (recs.get ⟨j, hj⟩).cacheKey ≠ (recs.get ⟨k, hk⟩).cacheKey := by
  obtain ⟨recs, hctx, hlen, hkeys⟩ := runFlowAux_keys p envs p.maxRetries 0 st
  have hctx' : (runFlow p envs st runStart runEnd).1.context = st.context ++ recs := by
    unfold runFlow
    simpa using hctx
  refine ⟨recs, hctx', hlen, ?_, ?_⟩
  · intro j hj
    simpa using (hkeys j hj).1
  · intro j k hj hk hne
    have h1 := (hkeys j hj).1
    have h2 := (hkeys k hk).1
    simp only [Nat.zero_add] at h1 h2
    rw [h1, h2]
    intro hcontra
    exact hdist j k (by omega) (by omega) hne ((cacheKey_inj _ _).mp hcontra)

/-- Attempt environments over a strictly increasing clock: attempt `i + 1`
reads `11 + i` at key allocation. -/
def envsDistinctClockW : Nat → AttemptEnv := fun i =>
  { capture := .error "network down", cache := .available, stream := .ok true,
    clone := .ok (), startNow := 10, keyNow := 11 + i, endNow := 10, timestamp := "t", rand := 1/2 }

/-- Witness for C8: with pairwise-distinct clock readings the two failure
records of a concrete run carry pairwise-distinct cache keys. -/
theorem C8_cache_keys_distinct_witness :
    (∀ i j, i < (⟨2, 0, 5000, 2⟩ : RetryPolicy).maxRetries →
      j < (⟨2, 0, 5000, 2⟩ : RetryPolicy).maxRetries → i ≠ j →
      (envsDistinctClockW i).keyNow ≠ (envsDistinctClockW j).keyNow) ∧
    ∃ recs,
      (runFlow ⟨2, 0, 5000, 2⟩ envsDistinctClockW emptyV2 0 0).1.context =
        emptyV2.context ++ recs ∧
      recs.length ≤ (⟨2, 0, 5000, 2⟩ : RetryPolicy).maxRetries ∧
      (∀ j (hj : j < recs.length),
        (recs.get ⟨j, hj⟩).cacheKey =
          "/screenshot-" ++ Nat.repr (envsDistinctClockW j).keyNow) ∧
      ∀ j k (hj : j < recs.length) (hk : k < recs.length), j ≠ k →
        (recs.get ⟨j, hj⟩).cacheKey ≠ (recs.get ⟨k, hk⟩).cacheKey := by
  have hdist : ∀ i j, i < (⟨2, 0, 5000, 2⟩ : RetryPolicy).maxRetries →
      j < (⟨2, 0, 5000, 2⟩ : RetryPolicy).maxRetries → i ≠ j →
      (envsDistinctClockW i).keyNow ≠ (envsDistinctClockW j).keyNow := by
    intro i j hi hj hne
    show 11 + i ≠ 11 + j
    omega
  exact ⟨hdist, C8_cache_keys_distinct ⟨2, 0, 5000, 2⟩ envsDistinctClockW emptyV2 0 0 hdist⟩

/-- With multiplier 1 and the median random draw (zero jitter), the computed
backoff delay is the constant `min initialDelayMs maxDelayMs` for every
attempt index. -/
lemma calculateDelay_mult_one (p : RetryPolicy) (k : Nat) (hmult : p.backoffMultiplier = 1) :
    calculateDelay p k (1/2) = min p.initialDelayMs p.maxDelayMs := by
  unfold calculateDelay
  rw [hmult]
  norm_num

/-- Alignment of one attempt across the two variants: when the stream is
never a non-thrown null and every failure message of the configurable
pipeline is retryable, either both variants succeed on the attempt or both
fail with the same (retryable) message. -/
lemma attemptAligned (env : AttemptEnv) (hs : env.stream ≠ Except.ok false)
    (hr : ∀ m, attemptResult env = .error m → isRetryableError m = true) :
    (∃ s s0, attemptResult env = .ok s ∧ Orchestrator.simpleAttemptResult env = .ok s0) ∨
    (∃ m, attemptResult env = .error m ∧ Orchestrator.simpleAttemptResult env = .error m ∧
      isRetryableError m = true) := by
  rcases hc : env.capture with m | bs
  · have h1 : attemptResult env = .error m := by
      unfold attemptResult; rw [hc]
    have h2 : Orchestrator.simpleAttemptResult env = .error m := by
      unfold Orchestrator.simpleAttemptResult; rw [hc]
    exact Or.inr ⟨m, h1, h2, hr m h1⟩
  · obtain ⟨blob, steps0⟩ := bs
    cases blob with
    | false =>
      have h1 : attemptResult env = .error "Screenshot blob is null - capture failed" := by
        unfold attemptResult; rw [hc]; simp
      exact absurd (hr _ h1) (by decide)
    | true =>
      rcases hst : env.stream with m | present
      · have h1 : attemptResult env = .error m := by
          unfold attemptResult; rw [hc, hst]; simp
        have h2 : Orchestrator.simpleAttemptResult env = .error m := by
          unfold Orchestrator.simpleAttemptResult; rw [hc, hst]; simp
        exact Or.inr ⟨m, h1, h2, hr m h1⟩
      · cases present with
        | false => exact absurd hst (by simpa using hs)
        | true =>
          rcases hcl : env.clone with m | u
          · have h1 : attemptResult env = .error m := by
              unfold attemptResult; rw [hc, hst, hcl]; simp
            have h2 : Orchestrator.simpleAttemptResult env = .error m := by
              unfold Orchestrator.simpleAttemptResult; rw [hc, hst, hcl]; simp
            exact Or.inr ⟨m, h1, h2, hr m h1⟩
          · have h1 : attemptResult env =
                .ok ((steps0 ++ ["Step 6: Screenshot cached successfully"]) ++
                  ["Step 7: Stream cloned and action listeners attached"]) := by
              unfold attemptResult; rw [hc, hst, hcl]; simp
            have h2 : Orchestrator.simpleAttemptResult env = .ok steps0 := by
              unfold Orchestrator.simpleAttemptResult; rw [hc, hst, hcl]; simp
            exact Or.inl ⟨_, _, h1, h2⟩

/-- The configurable loop does nothing once the attempt budget is spent. -/
lemma runFlowAux_stop (p : RetryPolicy) (envs : Nat → AttemptEnv) (fuel retries : Nat)
    (st : V2State) (h : ¬ retries < p.maxRetries) :
    runFlowAux p envs fuel retries st = (st, false, []) := by
  cases fuel with
  | zero => simp [runFlowAux]
  | succ fuel => simp only [runFlowAux]; rw [if_neg h]

/-- The simple loop does nothing once the attempt budget is spent. -/
lemma simpleRunFlowAux_stop (maxRetries : Nat) (envs : Nat → AttemptEnv) (fuel retries : Nat)
    (st : SimpleState) (h : ¬ retries < maxRetries) :
    Orchestrator.runFlowAux maxRetries envs fuel retries st = (st, false, []) := by
  cases fuel with
  | zero => simp [Orchestrator.runFlowAux]
  | succ fuel => simp only [Orchestrator.runFlowAux]; rw [if_neg h]

/-- Alignment of the two attempt loops under multiplier 1, median random
draws, no non-thrown null streams, and retryable-only failures: both loops
append the same number of records with pointwise-equal success flags and
return the same success value, while the waits differ: every configurable
wait equals `min initialDelayMs maxDelayMs` and the simple loop's `j`-th wait
is `1000 * (attempt index)` milliseconds. -/
lemma loops_aligned (p : RetryPolicy) (envs : Nat → AttemptEnv)
    (hmult : p.backoffMultiplier = 1)
    (hrand : ∀ i, (envs i).rand = 1/2)
    (hs : ∀ i, (envs i).stream ≠ Except.ok false)
    (hr : ∀ i m, attemptResult (envs i) = .error m → isRetryableError m = true) :
    ∀ fuel retries st1 st2,
    ∃ (mets : V2Metrics) (recs1 : List OrchestratorContextV2) (recs2 : List OrchestratorContext)
      (ok : Bool) (ds1 ds2 : List ℚ),
      runFlowAux p envs fuel retries st1 =
        ({ context := st1.context ++ recs1, metrics := mets }, ok, ds1) ∧
      Orchestrator.runFlowAux p.maxRetries envs fuel retries st2 =
        ({ context := st2.context ++ recs2 }, ok, ds2) ∧
      recs1.length = recs2.length ∧
      (∀ j (hj : j < recs1.length) (hj2 : j < recs2.length),
        (recs1.get ⟨j, hj⟩).success = (recs2.get ⟨j, hj2⟩).success) ∧
      (∀ d ∈ ds1, d = min p.initialDelayMs p.maxDelayMs) ∧
      (∀ j (hj : j < ds2.length), ds2.get ⟨j, hj⟩ = 1000 * ((retries + j + 1 : Nat) : ℚ)) ∧
      ds1.length = ds2.length := by
  intro fuel
  induction fuel with
  | zero =>
    intro retries st1 st2
    refine ⟨st1.metrics, [], [], false, [], [], ?_, ?_, rfl, by simp, by simp, by simp, rfl⟩
    · obtain ⟨c1, m1⟩ := st1
      simp [runFlowAux]
    · obtain ⟨c2⟩ := st2
      simp [Orchestrator.runFlowAux]
  | succ fuel ih =>
    intro retries st1 st2
    by_cases hret : retries < p.maxRetries
    · rcases attemptAligned (envs retries) (hs retries) (hr retries) with
        ⟨s, s0, hok1, hok2⟩ | ⟨m, herr1, herr2, hretry⟩
      · refine ⟨{ totalAttempts := st1.metrics.totalAttempts + 1
                  successfulAttempts := st1.metrics.successfulAttempts + 1
                  totalTimeMs := st1.metrics.totalTimeMs },
          [successRecord (retries + 1) (envs retries)
            ("/screenshot-" ++ Nat.repr (envs retries).keyNow) s],
          [{ attempt := retries + 1, timestamp := (envs retries).timestamp, steps := s0
             cacheKey := "/screenshot-" ++ Nat.repr (envs retries).keyNow, success := true }],
          true, [], [], ?_, ?_, rfl, ?_, by simp, by simp, rfl⟩
        · simp only [runFlowAux, hok1]
          rw [if_pos hret]
        · simp only [Orchestrator.runFlowAux, hok2]
          rw [if_pos hret]
        · intro j hj hj2
          have hj0 : j = 0 := by simpa using Nat.lt_one_iff.mp (by simpa using hj)
          subst hj0
          rfl
      · by_cases hbudget : retries + 1 < p.maxRetries
        · obtain ⟨mets, recs1, recs2, ok, ds1, ds2, hq1, hq2, hlen, hsucc, hd1, hd2, hdlen⟩ :=
            ih (retries + 1)
              { context := st1.context ++
                  [failureRecord (retries + 1) (envs retries)
                    ("/screenshot-" ++ Nat.repr (envs retries).keyNow) m]
                metrics := { totalAttempts := st1.metrics.totalAttempts + 1
                             successfulAttempts := st1.metrics.successfulAttempts
                             totalTimeMs := st1.metrics.totalTimeMs } }
              { context := st2.context ++
                  [{ attempt := retries + 1, timestamp := (envs retries).timestamp
                     steps := ["Error: " ++ m]
                     cacheKey := "/screenshot-" ++ Nat.repr (envs retries).keyNow
                     success := false }] }
          refine ⟨mets, failureRecord (retries + 1) (envs retries)
              ("/screenshot-" ++ Nat.repr (envs retries).keyNow) m :: recs1,
            { attempt := retries + 1, timestamp := (envs retries).timestamp
              steps := ["Error: " ++ m]
              cacheKey := "/screenshot-" ++ Nat.repr (envs retries).keyNow
              success := false } :: recs2,
            ok, min p.initialDelayMs p.maxDelayMs :: ds1,
            1000 * ((retries + 1 : Nat) : ℚ) :: ds2, ?_, ?_, by simpa using hlen, ?_, ?_, ?_,
            by simpa using hdlen⟩
          · simp only [runFlowAux, herr1]
            rw [if_pos hret, if_pos ⟨hretry, hbudget⟩]
            simp only at hq1 ⊢
            rw [hq1, hrand retries, calculateDelay_mult_one p (retries + 1) hmult]
            simp
          · simp only [Orchestrator.runFlowAux, herr2]
            rw [if_pos hret, if_pos hbudget]
            simp only at hq2 ⊢
            rw [hq2]
            simp
          · intro j hj hj2
            cases j with
            | zero => rfl
            | succ j =>
              exact hsucc j (by simpa using hj) (by simpa using hj2)
          · intro d hd
            rcases List.mem_cons.mp hd with h0 | h0
            · exact h0
            · exact hd1 d h0
          · intro j hj
            cases j with
            | zero => simp
            | succ j =>
              have hj2 : j < ds2.length := by simpa using hj
              have hval := hd2 j hj2
              have harg : retries + 1 + j + 1 = retries + (j + 1) + 1 := by omega
              rw [harg] at hval
              simpa using hval
        · have hstop1 := runFlowAux_stop p envs fuel (retries + 1)
            { context := st1.context ++
                [failureRecord (retries + 1) (envs retries)
                  ("/screenshot-" ++ Nat.repr (envs retries).keyNow) m]
              metrics := { totalAttempts := st1.metrics.totalAttempts + 1
                           successfulAttempts := st1.metrics.successfulAttempts
                           totalTimeMs := st1.metrics.totalTimeMs } } hbudget
          have hstop2 := simpleRunFlowAux_stop p.maxRetries envs fuel (retries + 1)
            { context := st2.context ++
                [{ attempt := retries + 1, timestamp := (envs retries).timestamp
                   steps := ["Error: " ++ m]
                   cacheKey := "/screenshot-" ++ Nat.repr (envs retries).keyNow
                   success := false }] } hbudget
          refine ⟨{ totalAttempts := st1.metrics.totalAttempts + 1
                    successfulAttempts := st1.metrics.successfulAttempts
                    totalTimeMs := st1.metrics.totalTimeMs },
            [failureRecord (retries + 1) (envs retries)
              ("/screenshot-" ++ Nat.repr (envs retries).keyNow) m],
            [{ attempt := retries + 1, timestamp := (envs retries).timestamp
               steps := ["Error: " ++ m]
               cacheKey := "/screenshot-" ++ Nat.repr (envs retries).keyNow
               success := false }],
            false, [], [], ?_, ?_, rfl, ?_, by simp, by simp, rfl⟩
          · simp only [runFlowAux, herr1]
            rw [if_pos hret, if_neg (by simp [hbudget]), if_neg (by simp [hretry]), hstop1]
          · simp only [Orchestrator.runFlowAux, herr2]
            rw [if_pos hret, if_neg hbudget, hstop2]
          · intro j hj hj2
            have hj0 : j = 0 := by simpa using Nat.lt_one_iff.mp (by simpa using hj)
            subst hj0
            rfl
    · refine ⟨st1.metrics, [], [], false, [], [], ?_, ?_, rfl, by simp, by simp, by simp, rfl⟩
      · obtain ⟨c1, m1⟩ := st1
        rw [runFlowAux_stop p envs (fuel + 1) retries _ hret]
        simp
      · obtain ⟨c2⟩ := st2
        rw [simpleRunFlowAux_stop p.maxRetries envs (fuel + 1) retries _ hret]
        simp

/-- Counterexample for C9: for a pipeline whose capture always throws "boom"
(not a retryable message), the configurable variant with multiplier 1 and
median draws performs 1 attempt (fatal short-circuit) while the simple
variant, which classifies nothing and retries every failure, performs all 3:
the two variants are not behaviorally equal for every pipeline behaviour. -/
theorem C9_variants_counterexample :
    (⟨3, 500, 5000, 1⟩ : RetryPolicy).backoffMultiplier = 1 ∧
    envFatalFailW.rand = 1/2 ∧
    (runFlow ⟨3, 500, 5000, 1⟩ (fun _ => envFatalFailW) emptyV2 0 100).1.context.length = 1 ∧
    (Orchestrator.runFlow 3 (fun _ => envFatalFailW) ⟨[]⟩).1.context.length = 3 ∧
    (1 : Nat) ≠ 3 := by
  exact ⟨rfl, rfl, by decide, by decide, by omega⟩

/-- Claim C9 as amended: the policy has no `jitterFraction` field (jitter is
a fixed ±20% driven by the random draw, zero at draw 1/2), and with
`multiplier = 1`, median draws, no non-thrown null streams and every failure
classified retryable, the simple and configurable attempt loops perform the
same number of attempts with pointwise-equal per-attempt outcomes and the
same final result; their inter-attempt delays differ, however: every
configurable wait is `min initialDelay maxDelay` while the simple variant's
`j`-th wait is `1000 * (j + 1)` ms.  Without the retryable-only hypothesis
the variants diverge (the simple loop never aborts on fatal failures). -/
theorem C9_variants_equivalence (p : RetryPolicy) (envs : Nat → AttemptEnv)
    (st1 : V2State) (st2 : SimpleState) (runStart runEnd : Nat)
    (hmult : p.backoffMultiplier = 1)
    (hrand : ∀ i, (envs i).rand = 1/2)
    (hs : ∀ i, (envs i).stream ≠ Except.ok false)
    (hr : ∀ i m, attemptResult (envs i) = .error m → isRetryableError m = true) :
    ∃ (recs1 : List OrchestratorContextV2) (recs2 : List OrchestratorContext)
      (ok : Bool) (ds1 ds2 : List ℚ),
      (runFlow p envs st1 runStart runEnd).1.context = st1.context ++ recs1 ∧
      (runFlow p envs st1 runStart runEnd).2 = (ok, ds1) ∧
      Orchestrator.runFlow p.maxRetries envs st2 =
        ({ context := st2.context ++ recs2 }, ok, ds2) ∧
      recs1.length = recs2.length ∧
      (∀ j (hj : j < recs1.length) (hj2 : j < recs2.length),
        (recs1.get ⟨j, hj⟩).success = (recs2.get ⟨j, hj2⟩).success) ∧
      (∀ d ∈ ds1, d = min p.initialDelayMs p.maxDelayMs) ∧
      (∀ j (hj : j < ds2.length), ds2.get ⟨j, hj⟩ = 1000 * ((j + 1 : Nat) : ℚ)) ∧
      ds1.length = ds2.length := by
  obtain ⟨mets, recs1, recs2, ok, ds1, ds2, hq1, hq2, hlen, hsucc, hd1, hd2, hdlen⟩ :=
    loops_aligned p envs hmult hrand hs hr p.maxRetries 0 st1 st2
  refine ⟨recs1, recs2, ok, ds1, ds2, ?_, ?_, ?_, hlen, hsucc, hd1, ?_, hdlen⟩
  · unfold runFlow
    rw [hq1]
  · unfold runFlow
    rw [hq1]
  · unfold Orchestrator.runFlow
    rw [hq2]
  · intro j hj
    simpa using hd2 j hj

/-- Witness for C9: the amended equivalence at a concrete retryable-only
pipeline under the two-attempt multiplier-1 policy. -/
theorem C9_variants_equivalence_witness :
    ((⟨2, 500, 5000, 1⟩ : RetryPolicy).backoffMultiplier = 1 ∧
      (∀ i : Nat, ((fun _ => envRetryFailW) i : AttemptEnv).rand = 1/2)) ∧
    ∃ (recs1 : List OrchestratorContextV2) (recs2 : List OrchestratorContext)
      (ok : Bool) (ds1 ds2 : List ℚ),
      (runFlow ⟨2, 500, 5000, 1⟩ (fun _ => envRetryFailW) emptyV2 0 100).1.context =
        emptyV2.context ++ recs1 ∧
      (runFlow ⟨2, 500, 5000, 1⟩ (fun _ => envRetryFailW) emptyV2 0 100).2 = (ok, ds1) ∧
      Orchestrator.runFlow (⟨2, 500, 5000, 1⟩ : RetryPolicy).maxRetries
          (fun _ => envRetryFailW) ⟨[]⟩ =
        ({ context := SimpleState.context ⟨[]⟩ ++ recs2 }, ok, ds2) ∧
      recs1.length = recs2.length ∧
      (∀ j (hj : j < recs1.length) (hj2 : j < recs2.length),
        (recs1.get ⟨j, hj⟩).success = (recs2.get ⟨j, hj2⟩).success) ∧
      (∀ d ∈ ds1, d = min (⟨2, 500, 5000, 1⟩ : RetryPolicy).initialDelayMs
        (⟨2, 500, 5000, 1⟩ : RetryPolicy).maxDelayMs) ∧
      (∀ j (hj : j < ds2.length), ds2.get ⟨j, hj⟩ = 1000 * ((j + 1 : Nat) : ℚ)) ∧
      ds1.length = ds2.length := by
  refine ⟨⟨rfl, fun i => rfl⟩, ?_⟩
  refine C9_variants_equivalence ⟨2, 500, 5000, 1⟩ (fun _ => envRetryFailW) emptyV2 ⟨[]⟩ 0 100
    rfl (fun i => rfl) (fun i => by simp [envRetryFailW]) ?_
  intro i m hm
  simp only [show attemptResult envRetryFailW = Except.error "network down" from rfl,
    Except.error.injEq] at hm
  subst hm
  decide
